import Mathlib

/-!
Shallow embedding of the VibeMQ documentation-build configuration layer.

The repository holds two Sphinx configuration modules:
  * src/docs/conf.py      — the default entry point, which is also the
    configuration of the default locale (language = "en");
  * src/docs/ru/conf.py   — the Russian locale configuration.

Each module is a straight-line script assigning module-level variables,
some of them conditional on the process environment (the READTHEDOCS
variable) or on the filesystem (os.path.exists probes for optional
assets).  We embed each module as a function from an environment
(String → Option String, modelling os.environ.get) and a filesystem
predicate (String → Bool, modelling os.path.exists) to a record of the
configuration variables the module leaves behind.
-/

/-- Values stored in the html_context dictionary: Python booleans,
strings, and one nested string-to-string dictionary
(available_languages). -/
inductive HCVal where
  | b (v : Bool)
  | s (v : String)
  | dict (v : List (String × String))
deriving DecidableEq, Repr

/-- Values stored in the html_theme_options dictionary: booleans,
integers (navigation_depth) and strings (prev_next_buttons_location). -/
inductive ThemeVal where
  | b (v : Bool)
  | n (v : Nat)
  | s (v : String)
deriving DecidableEq, Repr

/-- The record of configuration variables a conf.py module produces.
Fields a module does not assign take the documented Sphinx default
(noted at each use site). -/
structure SphinxConfig where
  project : String
  copyright : String
  author : String
  release : String
  version : String
  extensions : List String
  intersphinx_mapping : List (String × (String × Option String))
  intersphinx_disabled_domains : List String
  templates_path : List String
  exclude_patterns : List String
  locale_dirs : List String
  language : String
  gettext_uuid : Bool
  gettext_compact : Bool
  html_theme : String
  html_static_path : List String
  html_logo : Option String
  html_favicon : Option String
  html_theme_options : List (String × ThemeVal)
  html_css_files : List String
  html_js_files : List String
  epub_show_urls : String
  html_context : List (String × HCVal)
deriving DecidableEq, Repr

/-- Python truthiness of the result of os.environ.get: None and the
empty string are falsy, any other string is truthy. -/
def envTruthy : Option String → Bool
  | none => false
  | some s => s ≠ ""

/-- Assignment d[k] = v on a Python dict modelled as an association
list: replace the value when the key is present (keeping its
position), append the pair otherwise (insertion order is preserved,
as for Python dicts). -/
def dictSet (d : List (String × HCVal)) (k : String) (v : HCVal) :
    List (String × HCVal) :=
  if d.any (fun p => p.1 = k) then
    d.map (fun p => if p.1 = k then (k, v) else p)
  else
    d ++ [(k, v)]

namespace DocsConf

/-! Embedding of src/docs/conf.py (the default entry point; it is
itself the configuration of the default locale, language = "en"). -/

def project : String := "VibeMQ"

def copyright : String := "2026, Darkboy"

def author : String := "Darkboy"

def release : String := "1.0.0"

def version : String := "1.0.0"

def extensions : List String :=
  ["sphinx.ext.duration", "sphinx.ext.doctest", "sphinx.ext.autodoc",
   "sphinx.ext.autosummary", "sphinx.ext.intersphinx",
   "sphinx.ext.viewcode", "sphinx.ext.githubpages", "sphinx_copybutton"]

def intersphinx_mapping : List (String × (String × Option String)) :=
  [("rtd", ("https://docs.readthedocs.io/en/stable/", none)),
   ("python", ("https://docs.python.org/3/", none))]

def intersphinx_disabled_domains : List String := ["std"]

def templates_path : List String := ["_templates"]

def exclude_patterns : List String :=
  ["_build", "Thumbs.db", ".DS_Store", "**.ipynb_checkpoints",
   "locale", "docs"]

def locale_dirs : List String := ["locale"]

def language : String := "en"

def html_theme : String := "sphinx_rtd_theme"

def html_static_path : List String := ["_static"]

def html_theme_options : List (String × ThemeVal) :=
  [("logo_only", ThemeVal.b false), ("display_version", ThemeVal.b true),
   ("prev_next_buttons_location", ThemeVal.s "bottom"),
   ("style_external_links", ThemeVal.b true),
   ("navigation_depth", ThemeVal.n 4),
   ("collapse_navigation", ThemeVal.b false),
   ("sticky_navigation", ThemeVal.b true),
   ("includehidden", ThemeVal.b true), ("titles_only", ThemeVal.b false)]

def epub_show_urls : String := "footnote"

/-- html_context is assigned only inside the
`if os.environ.get(READTHEDOCS):` block; when the signal is absent the
variable is never set and Sphinx uses its default, the empty dict. -/
def html_context (env : String → Option String) : List (String × HCVal) :=
  if envTruthy (env "READTHEDOCS") then
    [("READTHEDOCS", HCVal.b true),
     ("display_lower_left", HCVal.b true),
     ("version", HCVal.s version)]
  else []

/-- The full record src/docs/conf.py leaves behind, given the process
environment and the filesystem.  html_css_files and html_js_files are
not assigned by this module (Sphinx default: empty list). -/
def resolved (env : String → Option String) (fs : String → Bool) :
    SphinxConfig :=
  { project := project
    copyright := copyright
    author := author
    release := release
    version := version
    extensions := extensions
    intersphinx_mapping := intersphinx_mapping
    intersphinx_disabled_domains := intersphinx_disabled_domains
    templates_path := templates_path
    exclude_patterns := exclude_patterns
    locale_dirs := locale_dirs
    language := language
    gettext_uuid := true
    gettext_compact := false
    html_theme := html_theme
    html_static_path := html_static_path
    html_logo :=
      if fs "_static/logo.png" then some "_static/logo.png" else none
    html_favicon :=
      if fs "_static/favicon.ico" then some "_static/favicon.ico" else none
    html_theme_options := html_theme_options
    html_css_files := []
    html_js_files := []
    epub_show_urls := epub_show_urls
    html_context := html_context env }

end DocsConf

namespace RuConf

/-! Embedding of src/docs/ru/conf.py (the Russian locale). -/

def project : String := "VibeMQ"

def copyright : String := "2026, Darkboy"

def author : String := "Darkboy"

def release : String := "1.0.0"

def version : String := "1.0.0"

def extensions : List String :=
  ["sphinx.ext.duration", "sphinx.ext.doctest", "sphinx.ext.autodoc",
   "sphinx.ext.autosummary", "sphinx.ext.intersphinx",
   "sphinx.ext.viewcode", "sphinx.ext.githubpages", "sphinx_copybutton"]

def intersphinx_mapping : List (String × (String × Option String)) :=
  [("rtd", ("https://docs.readthedocs.io/en/stable/", none)),
   ("python", ("https://docs.python.org/3/", none))]

def intersphinx_disabled_domains : List String := ["std"]

def templates_path : List String := ["../_templates"]

def exclude_patterns : List String :=
  ["_build", "Thumbs.db", ".DS_Store", "**.ipynb_checkpoints"]

def language : String := "ru"

def html_theme : String := "sphinx_rtd_theme"

def html_static_path : List String := ["../_static"]

def html_theme_options : List (String × ThemeVal) :=
  [("logo_only", ThemeVal.b false), ("display_version", ThemeVal.b true),
   ("prev_next_buttons_location", ThemeVal.s "bottom"),
   ("style_external_links", ThemeVal.b true),
   ("navigation_depth", ThemeVal.n 4),
   ("collapse_navigation", ThemeVal.b false),
   ("sticky_navigation", ThemeVal.b true),
   ("includehidden", ThemeVal.b true), ("titles_only", ThemeVal.b false)]

def html_css_files : List String := ["language-selector.css"]

def html_js_files : List String := ["language-selector.js"]

def epub_show_urls : String := "footnote"

/-- html_context is first assigned a four-key dict literal, then
mutated by two unconditional item assignments (version and
display_lower_left), and finally, when the READTHEDOCS signal is
truthy, by a third item assignment adding the READTHEDOCS key. -/
def html_context (env : String → Option String) : List (String × HCVal) :=
  let d : List (String × HCVal) :=
    [("display_language_selector", HCVal.b true),
     ("language_code", HCVal.s "ru"),
     ("available_languages",
       HCVal.dict [("ru", "Русский"), ("en", "English")]),
     ("current_language", HCVal.s "ru")]
  let d := dictSet d "version" (HCVal.s version)
  let d := dictSet d "display_lower_left" (HCVal.b true)
  if envTruthy (env "READTHEDOCS") then
    dictSet d "READTHEDOCS" (HCVal.b true)
  else d

/-- The full record src/docs/ru/conf.py leaves behind.  locale_dirs,
gettext_uuid and gettext_compact are not assigned by this module
(Sphinx defaults: a list containing the locales directory, false, and
true respectively). -/
def resolved (env : String → Option String) (fs : String → Bool) :
    SphinxConfig :=
  { project := project
    copyright := copyright
    author := author
    release := release
    version := version
    extensions := extensions
    intersphinx_mapping := intersphinx_mapping
    intersphinx_disabled_domains := intersphinx_disabled_domains
    templates_path := templates_path
    exclude_patterns := exclude_patterns
    locale_dirs := ["locales"]
    language := language
    gettext_uuid := false
    gettext_compact := true
    html_theme := html_theme
    html_static_path := html_static_path
    html_logo :=
      if fs "../_static/logo.png" then some "../_static/logo.png" else none
    html_favicon :=
      if fs "../_static/favicon.ico" then some "../_static/favicon.ico"
      else none
    html_theme_options := html_theme_options
    html_css_files := html_css_files
    html_js_files := html_js_files
    epub_show_urls := epub_show_urls
    html_context := html_context env }

end RuConf

/-- The registry of locales present in the repository: "en" lives in
src/docs (the default entry point) and "ru" in src/docs/ru.  Any other
identifier has no configuration module. -/
def resolveLocale (L : String) (env : String → Option String)
    (fs : String → Bool) : Option SphinxConfig :=
  if L = "en" then some (DocsConf.resolved env fs)
  else if L = "ru" then some (RuConf.resolved env fs)
  else none

/-- Resolving with no explicit locale: Sphinx reads src/docs/conf.py,
which is exactly the default-locale configuration module. -/
def resolveDefault (env : String → Option String) (fs : String → Bool) :
    SphinxConfig :=
  DocsConf.resolved env fs

/-- All asset paths a resolved configuration references: template
directories, static directories, and the optional logo and favicon
files when present. -/
def assetPaths (c : SphinxConfig) : List String :=
  c.templates_path ++ c.html_static_path ++
    c.html_logo.toList ++ c.html_favicon.toList

/-- Splits a character list at every slash, the usual path-component
decomposition. -/
def splitSlash : List Char → List (List Char)
  | [] => [[]]
  | c :: rest =>
    if c = '/' then [] :: splitSlash rest
    else match splitSlash rest with
      | [] => [[c]]
      | h :: t => (c :: h) :: t

/-- Walks the slash-separated components of a relative path keeping
the current depth below the starting directory; returns true when a
".." component steps above the starting directory at any point. -/
def escapeAux : List (List Char) → Nat → Bool
  | [], _ => false
  | c :: rest, d =>
    if c = ['.', '.'] then
      match d with
      | 0 => true
      | e + 1 => escapeAux rest e
    else if c = ['.'] ∨ c = [] then escapeAux rest d
    else escapeAux rest (d + 1)

/-- A relative path escapes the directory it is resolved against when
some ".." component climbs above that directory. -/
def pathEscapes (p : String) : Bool :=
  escapeAux (splitSlash p.toList) 0

/-- C1: resolving with no explicit locale (the default entry point,
src/docs/conf.py) yields a record field-for-field identical to
resolving the designated default locale "en" explicitly: the registry
entry for "en" is exactly the record the default entry point produces,
for every environment and filesystem. -/
theorem c1_default_redirects_to_en (env : String → Option String)
    (fs : String → Bool) :
    resolveLocale "en" env fs = some (resolveDefault env fs) := rfl

/-- C2 counterexample: the claim that no asset path contains a ".."
component escaping the locale root fails on the "ru" locale, whose
templates_path entry "../_templates" climbs out of src/docs/ru into
the parent directory. -/
theorem c2_counterexample :
    "../_templates" ∈
      assetPaths (RuConf.resolved (fun _ => none) (fun _ => true)) ∧
    pathEscapes "../_templates" = true := by decide

/-- C2 amended: the default ("en") locale resolves every asset path
inside its own directory, but every asset path of the "ru" locale
begins with a ".." component and escapes the locale root into the
shared parent docs directory. -/
theorem c2_asset_path_escape (env : String → Option String)
    (fs : String → Bool) :
    (∀ p ∈ assetPaths (DocsConf.resolved env fs), pathEscapes p = false) ∧
    (∀ p ∈ assetPaths (RuConf.resolved env fs), pathEscapes p = true) := by
  constructor
  · intro p hp
    have hsub : p ∈ ["_templates", "_static", "_static/logo.png",
        "_static/favicon.ico"] := by
      simp only [assetPaths, DocsConf.resolved, DocsConf.templates_path,
        DocsConf.html_static_path, List.mem_append, List.mem_cons,
        List.not_mem_nil, or_false, Option.mem_toList, Option.mem_def] at hp
      rcases hp with ((h | h) | h) | h
      · simp [h]
      · simp [h]
      · split at h <;> simp_all
      · split at h <;> simp_all
    fin_cases hsub <;> decide
  · intro p hp
    have hsub : p ∈ ["../_templates", "../_static", "../_static/logo.png",
        "../_static/favicon.ico"] := by
      simp only [assetPaths, RuConf.resolved, RuConf.templates_path,
        RuConf.html_static_path, List.mem_append, List.mem_cons,
        List.not_mem_nil, or_false, Option.mem_toList, Option.mem_def] at hp
      rcases hp with ((h | h) | h) | h
      · simp [h]
      · simp [h]
      · split at h <;> simp_all
      · split at h <;> simp_all
    fin_cases hsub <;> decide

/-- C2 witness: the amended theorem evaluated at a concrete
environment and filesystem, on one path of each locale. -/
theorem c2_asset_path_escape_witness :
    pathEscapes "_templates" = false ∧ pathEscapes "../_templates" = true :=
  ⟨(c2_asset_path_escape (fun _ => none) (fun _ => true)).1 "_templates"
      (by decide),
   (c2_asset_path_escape (fun _ => none) (fun _ => true)).2 "../_templates"
      (by decide)⟩

/-- C3: when the READTHEDOCS variable is unset, resolution of any
locale is identical across two environments that may differ
arbitrarily on every other variable: the environment-override step
contributes nothing. -/
theorem c3_env_noninterference (L : String)
    (env1 env2 : String → Option String) (fs : String → Bool)
    (h1 : env1 "READTHEDOCS" = none) (h2 : env2 "READTHEDOCS" = none) :
    resolveLocale L env1 fs = resolveLocale L env2 fs := by
  simp [resolveLocale, DocsConf.resolved, RuConf.resolved,
    DocsConf.html_context, RuConf.html_context, h1, h2, envTruthy]

/-- C3 witness: two concrete environments, one empty and one binding
an unrelated variable, resolve the "ru" locale identically. -/
theorem c3_env_noninterference_witness :
    resolveLocale "ru" (fun _ => none) (fun _ => false) =
      resolveLocale "ru" (fun k => if k = "VERBOSE" then some "1" else none)
        (fun _ => false) :=
  c3_env_noninterference "ru" _ _ _ rfl (by decide)

/-- C4: when the READTHEDOCS signal is present (truthy), each locale's
resolved html_context carries the three override entries (READTHEDOCS
set to true, version set to the project version string, and
display_lower_left set to true); every configuration field outside
html_context is exactly what it is when the signal is absent, and
inside html_context every key other than the three override keys looks
up to the same value as when the signal is absent. -/
theorem c4_env_override_precedence (envOn envOff : String → Option String)
    (fs : String → Bool)
    (hOn : envTruthy (envOn "READTHEDOCS") = true)
    (hOff : envTruthy (envOff "READTHEDOCS") = false) :
    (List.lookup "READTHEDOCS" (DocsConf.resolved envOn fs).html_context
        = some (HCVal.b true) ∧
     List.lookup "version" (DocsConf.resolved envOn fs).html_context
        = some (HCVal.s DocsConf.version) ∧
     List.lookup "display_lower_left"
        (DocsConf.resolved envOn fs).html_context = some (HCVal.b true) ∧
     { DocsConf.resolved envOn fs with html_context := [] }
        = { DocsConf.resolved envOff fs with html_context := [] } ∧
     ∀ k, k ≠ "READTHEDOCS" → k ≠ "version" → k ≠ "display_lower_left" →
       List.lookup k (DocsConf.resolved envOn fs).html_context
         = List.lookup k (DocsConf.resolved envOff fs).html_context) ∧
    (List.lookup "READTHEDOCS" (RuConf.resolved envOn fs).html_context
        = some (HCVal.b true) ∧
     List.lookup "version" (RuConf.resolved envOn fs).html_context
        = some (HCVal.s RuConf.version) ∧
     List.lookup "display_lower_left"
        (RuConf.resolved envOn fs).html_context = some (HCVal.b true) ∧
     { RuConf.resolved envOn fs with html_context := [] }
        = { RuConf.resolved envOff fs with html_context := [] } ∧
     ∀ k, k ≠ "READTHEDOCS" → k ≠ "version" → k ≠ "display_lower_left" →
       List.lookup k (RuConf.resolved envOn fs).html_context
         = List.lookup k (RuConf.resolved envOff fs).html_context) := by
  refine ⟨⟨?_, ?_, ?_, ?_, ?_⟩, ⟨?_, ?_, ?_, ?_, ?_⟩⟩
  · simp [DocsConf.resolved, DocsConf.html_context, hOn, List.lookup]
  · simp [DocsConf.resolved, DocsConf.html_context, hOn, List.lookup]
  · simp [DocsConf.resolved, DocsConf.html_context, hOn, List.lookup]
  · simp [DocsConf.resolved]
  · intro k hk1 hk2 hk3
    have hb1 : (k == "READTHEDOCS") = false := beq_eq_false_iff_ne.mpr hk1
    have hb2 : (k == "version") = false := beq_eq_false_iff_ne.mpr hk2
    have hb3 : (k == "display_lower_left") = false :=
      beq_eq_false_iff_ne.mpr hk3
    simp [DocsConf.resolved, DocsConf.html_context, hOn, hOff,
      List.lookup, hb1, hb2, hb3]
  · simp [RuConf.resolved, RuConf.html_context, hOn, dictSet, List.lookup]
  · simp [RuConf.resolved, RuConf.html_context, hOn, dictSet, List.lookup]
  · simp [RuConf.resolved, RuConf.html_context, hOn, dictSet, List.lookup]
  · simp [RuConf.resolved]
  · intro k hk1 hk2 hk3
    have hb1 : (k == "READTHEDOCS") = false := beq_eq_false_iff_ne.mpr hk1
    simp [RuConf.resolved, RuConf.html_context, hOn, hOff, dictSet,
      List.lookup, hb1]

/-- C4 witness: the override theorem evaluated at a concrete truthy
and a concrete absent environment, on one override key and one
non-override key. -/
theorem c4_env_override_precedence_witness :
    List.lookup "READTHEDOCS"
      (DocsConf.resolved (fun _ => some "True") (fun _ => false)).html_context
      = some (HCVal.b true) ∧
    List.lookup "language_code"
      (RuConf.resolved (fun _ => some "True") (fun _ => false)).html_context
      = List.lookup "language_code"
        (RuConf.resolved (fun _ => none) (fun _ => false)).html_context :=
  ⟨(c4_env_override_precedence (fun _ => some "True") (fun _ => none)
      (fun _ => false) (by decide) (by decide)).1.1,
   (c4_env_override_precedence (fun _ => some "True") (fun _ => none)
      (fun _ => false) (by decide) (by decide)).2.2.2.2.2 "language_code"
      (by decide) (by decide) (by decide)⟩

/-- C5: resolving any locale identifier registered in the repository
yields a record whose language field equals that identifier. -/
theorem c5_locale_field_matches (L : String)
    (env : String → Option String) (fs : String → Bool)
    (c : SphinxConfig) (h : resolveLocale L env fs = some c) :
    c.language = L := by
  by_cases hL : L = "en"
  · subst hL; simp [resolveLocale] at h; subst h; rfl
  · by_cases hR : L = "ru"
    · subst hR; simp [resolveLocale] at h; subst h; rfl
    · simp [resolveLocale, hL, hR] at h

/-- C5 witness: the locale-field theorem evaluated on the "en"
registry entry at a concrete environment and filesystem. -/
theorem c5_locale_field_matches_witness :
    (DocsConf.resolved (fun _ => none) (fun _ => false)).language = "en" :=
  c5_locale_field_matches "en" (fun _ => none) (fun _ => false) _ rfl

/-- C6: for every environment and filesystem, the extensions sequence
of each locale's resolved configuration contains no duplicate
identifiers. -/
theorem c6_extensions_nodup (env : String → Option String)
    (fs : String → Bool) :
    ((DocsConf.resolved env fs).extensions).Nodup ∧
    ((RuConf.resolved env fs).extensions).Nodup :=
  ⟨by show DocsConf.extensions.Nodup; decide,
   by show RuConf.extensions.Nodup; decide⟩

/-- C7: whenever a resolved configuration of either locale carries the
available_languages mapping in its html_context, both the
current_language entry and the record's own language field are keys of
that mapping. -/
theorem c7_selector_keys (env : String → Option String) (fs : String → Bool)
    (c : SphinxConfig)
    (hc : c = DocsConf.resolved env fs ∨ c = RuConf.resolved env fs)
    (d : List (String × String))
    (hd : List.lookup "available_languages" c.html_context
        = some (HCVal.dict d)) :
    (∃ cl, List.lookup "current_language" c.html_context
        = some (HCVal.s cl) ∧ (List.lookup cl d).isSome = true) ∧
    (List.lookup c.language d).isSome = true := by
  rcases hc with rfl | rfl
  · exfalso
    by_cases h : envTruthy (env "READTHEDOCS") = true <;>
      simp [DocsConf.resolved, DocsConf.html_context, h, List.lookup] at hd
  · by_cases h : envTruthy (env "READTHEDOCS") = true
    · simp [RuConf.resolved, RuConf.html_context, h, dictSet,
        List.lookup] at hd
      subst hd
      refine ⟨⟨"ru", ?_, by decide⟩, ?_⟩
      · simp [RuConf.resolved, RuConf.html_context, h, dictSet, List.lookup]
      · show (List.lookup RuConf.language
          [("ru", "Русский"), ("en", "English")]).isSome = true
        decide
    · simp [RuConf.resolved, RuConf.html_context, h, dictSet,
        List.lookup] at hd
      subst hd
      refine ⟨⟨"ru", ?_, by decide⟩, ?_⟩
      · simp [RuConf.resolved, RuConf.html_context, h, dictSet, List.lookup]
      · show (List.lookup RuConf.language
          [("ru", "Русский"), ("en", "English")]).isSome = true
        decide

/-- C7 witness: the selector-key theorem evaluated on the "ru" record
at a concrete environment and filesystem, with the concrete
available_languages mapping. -/
theorem c7_selector_keys_witness :
    (∃ cl, List.lookup "current_language"
        (RuConf.resolved (fun _ => none) (fun _ => false)).html_context
        = some (HCVal.s cl) ∧
        (List.lookup cl [("ru", "Русский"), ("en", "English")]).isSome
          = true) ∧
    (List.lookup (RuConf.resolved (fun _ => none) (fun _ => false)).language
        [("ru", "Русский"), ("en", "English")]).isSome = true :=
  c7_selector_keys (fun _ => none) (fun _ => false) _ (Or.inr rfl) _
    (by decide)

/-- C8: for each locale, when the optional logo or favicon file is
absent from the filesystem, the corresponding field of the resolved
record is the explicit absent marker none; the existence probe is the
only filesystem interaction, so resolution never fails. -/
theorem c8_absent_assets (env : String → Option String)
    (fs : String → Bool) :
    (fs "_static/logo.png" = false →
      (DocsConf.resolved env fs).html_logo = none) ∧
    (fs "_static/favicon.ico" = false →
      (DocsConf.resolved env fs).html_favicon = none) ∧
    (fs "../_static/logo.png" = false →
      (RuConf.resolved env fs).html_logo = none) ∧
    (fs "../_static/favicon.ico" = false →
      (RuConf.resolved env fs).html_favicon = none) := by
  refine ⟨fun h => ?_, fun h => ?_, fun h => ?_, fun h => ?_⟩ <;>
    simp [DocsConf.resolved, RuConf.resolved, h]

/-- C8 witness: on an empty filesystem, the "en" logo and the "ru"
favicon both resolve to none. -/
theorem c8_absent_assets_witness :
    (DocsConf.resolved (fun _ => none) (fun _ => false)).html_logo
      = none ∧
    (RuConf.resolved (fun _ => none) (fun _ => false)).html_favicon
      = none :=
  ⟨(c8_absent_assets (fun _ => none) (fun _ => false)).1 rfl,
   (c8_absent_assets (fun _ => none) (fun _ => false)).2.2.2 rfl⟩

/-- C9: for every environment and filesystem, the two locale
configurations agree on all project metadata (project, copyright,
author, release, version, with release equal to version) and declare
the same extensions sequence in the same order. -/
theorem c9_metadata_and_extensions_agree (env : String → Option String)
    (fs : String → Bool) :
    (DocsConf.resolved env fs).project = (RuConf.resolved env fs).project ∧
    (DocsConf.resolved env fs).copyright
      = (RuConf.resolved env fs).copyright ∧
    (DocsConf.resolved env fs).author = (RuConf.resolved env fs).author ∧
    (DocsConf.resolved env fs).release = (RuConf.resolved env fs).release ∧
    (DocsConf.resolved env fs).version = (RuConf.resolved env fs).version ∧
    (DocsConf.resolved env fs).release = (DocsConf.resolved env fs).version ∧
    (DocsConf.resolved env fs).extensions
      = (RuConf.resolved env fs).extensions :=
  ⟨rfl, rfl, rfl, rfl, rfl, rfl, rfl⟩

/-- C10: in the "ru" locale's resolved configuration, html_context
always holds version equal to the project version string and
display_lower_left equal to true, whatever the environment; and any
key other than READTHEDOCS looks up to the same value under any two
environments. -/
theorem c10_ru_context_env_independent
    (env1 env2 : String → Option String) (fs : String → Bool) :
    List.lookup "version" (RuConf.resolved env1 fs).html_context
      = some (HCVal.s RuConf.version) ∧
    List.lookup "display_lower_left"
      (RuConf.resolved env1 fs).html_context = some (HCVal.b true) ∧
    ∀ k, k ≠ "READTHEDOCS" →
      List.lookup k (RuConf.resolved env1 fs).html_context
        = List.lookup k (RuConf.resolved env2 fs).html_context := by
  refine ⟨?_, ?_, ?_⟩
  · by_cases h : envTruthy (env1 "READTHEDOCS") = true <;>
      simp [RuConf.resolved, RuConf.html_context, h, dictSet, List.lookup]
  · by_cases h : envTruthy (env1 "READTHEDOCS") = true <;>
      simp [RuConf.resolved, RuConf.html_context, h, dictSet, List.lookup]
  · intro k hk
    have hb : (k == "READTHEDOCS") = false := beq_eq_false_iff_ne.mpr hk
    by_cases h1 : envTruthy (env1 "READTHEDOCS") = true <;>
    by_cases h2 : envTruthy (env2 "READTHEDOCS") = true <;>
      simp [RuConf.resolved, RuConf.html_context, h1, h2, dictSet,
        List.lookup, hb]

/-- C10 witness: evaluated with the signal present in one environment
and absent in the other, on the version entry and on one
environment-independent key. -/
theorem c10_ru_context_env_independent_witness :
    List.lookup "version"
      (RuConf.resolved (fun _ => some "True") (fun _ => false)).html_context
      = some (HCVal.s RuConf.version) ∧
    List.lookup "current_language"
      (RuConf.resolved (fun _ => some "True") (fun _ => false)).html_context
      = List.lookup "current_language"
        (RuConf.resolved (fun _ => none) (fun _ => false)).html_context :=
  ⟨(c10_ru_context_env_independent (fun _ => some "True") (fun _ => none)
      (fun _ => false)).1,
   (c10_ru_context_env_independent (fun _ => some "True") (fun _ => none)
      (fun _ => false)).2.2 "current_language" (by decide)⟩
